import Mathlib

/-!
Verification of the ZENIX maternal-health triage backend.

This file shallowly embeds the Python sources under `backend/app` and the
repository's test scripts, and proves the specified properties about them:

* `backend/app/engine/zudu_integration.py` — the external insight client
  (`ZuduAIClient._make_request`, `analyze_clinical_context`,
  `_get_fallback_response`);
* `backend/app/api/auth.py` — the `register` endpoint with the SL-1
  invite-code check;
* `backend/app/api/admin.py` — `generate_invite_codes` and the health
  endpoint's FSM statistics;
* the circuit-breaker / arbiter pipeline and the FSM statistics repository,
  which are referenced but whose modules are not part of the provided
  sources, modelled from the specification.

HTTP, the database and the clock are modelled as explicit parameters:
an oracle `behavior : Nat → HttpOutcome` gives the outcome of the n-th
HTTP attempt, a `DbState` record holds the Mongo collections, and `now`
is a natural-number timestamp.  Python exceptions are explicit outcome
constructors; a value landing in the `Except.error` / crash constructor
corresponds to the Python code raising.
-/

namespace Zenix

/-- Parsed JSON body of a 200 response; each field optional, read with
`response.get(key, default)` in the Python code. -/
structure ZuduResponse where
  clinical_insights : Option String
  recommended_actions : Option (List String)
  risk_explanation : Option String
  urgency_score : Option Rat
deriving DecidableEq

/-- Outcome of one HTTP POST to the Zudu endpoint, as seen by
`_make_request`: a parsed 200 body, a distinguished status code, a timeout
(`asyncio.TimeoutError`), a connection error (`aiohttp.ClientError`), or any
other exception raised inside the attempt. -/
inductive HttpOutcome where
  | ok (data : ZuduResponse)
  | status401
  | status429
  | statusOther (code : Nat) (text : String)
  | timeout
  | connError (msg : String)
  | raiseOther (msg : String)

/-- The exceptions `analyze_clinical_context` can see from `_make_request`:
`ZuduAPIException` with its message, or any other exception. -/
inductive ZuduError where
  | apiExc (msg : String)
  | otherExc (msg : String)
deriving DecidableEq

deriving instance DecidableEq for Except

/-- Result of a `_make_request` call together with its observable trace:
the list of attempt numbers at which a POST was issued, and the list of
back-off sleeps performed (in seconds). -/
structure ReqTrace where
  outcome : Except ZuduError ZuduResponse
  attempts : List Nat
  sleeps : List Nat
deriving DecidableEq

/-- `ZuduAIClient._make_request`, recursion made structural on
`gas = max_retries - attempt`: the source guard `attempt < max_retries`
holds exactly when `gas > 0`, so the `gas = 0` branch is the source's
"retries exhausted" branch and the `gas + 1` branch its recursive branch.
Non-200 statuses raise `ZuduAPIException` inside the `try` block and are
not retried (only `asyncio.TimeoutError` and `aiohttp.ClientError` are). -/
def makeRequestAux (behavior : Nat → HttpOutcome) : Nat → Nat → ReqTrace
  | 0, attempt =>
    match behavior attempt with
    | .ok data => ⟨.ok data, [attempt], []⟩
    | .status401 => ⟨.error (.apiExc "Invalid Zudu AI API key"), [attempt], []⟩
    | .status429 => ⟨.error (.apiExc "Rate limit exceeded"), [attempt], []⟩
    | .statusOther code text =>
        ⟨.error (.apiExc ("API error " ++ toString code ++ ": " ++ text)), [attempt], []⟩
    | .timeout => ⟨.error (.apiExc "Request timeout after retries"), [attempt], []⟩
    | .connError msg => ⟨.error (.apiExc ("Connection error: " ++ msg)), [attempt], []⟩
    | .raiseOther msg => ⟨.error (.otherExc msg), [attempt], []⟩
  | gas + 1, attempt =>
    match behavior attempt with
    | .ok data => ⟨.ok data, [attempt], []⟩
    | .status401 => ⟨.error (.apiExc "Invalid Zudu AI API key"), [attempt], []⟩
    | .status429 => ⟨.error (.apiExc "Rate limit exceeded"), [attempt], []⟩
    | .statusOther code text =>
        ⟨.error (.apiExc ("API error " ++ toString code ++ ": " ++ text)), [attempt], []⟩
    | .timeout =>
        let r := makeRequestAux behavior gas (attempt + 1)
        ⟨r.outcome, attempt :: r.attempts, 2 ^ attempt :: r.sleeps⟩
    | .connError _ =>
        let r := makeRequestAux behavior gas (attempt + 1)
        ⟨r.outcome, attempt :: r.attempts, 2 ^ attempt :: r.sleeps⟩
    | .raiseOther msg => ⟨.error (.otherExc msg), [attempt], []⟩

/-- `ZuduAIClient._make_request(payload, attempt)` with
`max_retries = maxRetries`. -/
def make_request (maxRetries : Nat) (behavior : Nat → HttpOutcome)
    (attempt : Nat) : ReqTrace :=
  makeRequestAux behavior (maxRetries - attempt) attempt

/-- Patient vitals (`ClinicalVitals`) as passed into the client. -/
structure ClinicalVitals where
  age : Rat
  systolic_bp : Rat
  diastolic_bp : Rat
  blood_sugar : Rat
  body_temp : Rat
  heart_rate : Rat
  blood_oxygen : Rat
  gestational_weeks : Rat
deriving DecidableEq

/-- The `risk_assessment` dictionary argument: the two keys the client
reads, each possibly absent (`dict.get` with a default). -/
structure RiskAssessmentInput where
  risk_level : Option String
  alerts : Option (List String)
deriving DecidableEq

/-- The JSON payload `analyze_clinical_context` builds and POSTs. -/
structure ZuduPayload where
  v_age : Rat
  v_systolic_bp : Rat
  v_diastolic_bp : Rat
  v_blood_sugar : Rat
  v_body_temp : Rat
  v_heart_rate : Rat
  v_blood_oxygen : Rat
  v_gestational_weeks : Rat
  current_risk : String
  alerts : List String
  patient_age : Rat
  gestational_weeks : Rat
deriving DecidableEq

def buildPayload (vitals : ClinicalVitals) (ra : RiskAssessmentInput) : ZuduPayload :=
  { v_age := vitals.age
    v_systolic_bp := vitals.systolic_bp
    v_diastolic_bp := vitals.diastolic_bp
    v_blood_sugar := vitals.blood_sugar
    v_body_temp := vitals.body_temp
    v_heart_rate := vitals.heart_rate
    v_blood_oxygen := vitals.blood_oxygen
    v_gestational_weeks := vitals.gestational_weeks
    current_risk := ra.risk_level.getD "UNKNOWN"
    alerts := ra.alerts.getD []
    patient_age := vitals.age
    gestational_weeks := vitals.gestational_weeks }

/-- The dictionary `analyze_clinical_context` returns. -/
structure InsightResult where
  clinical_insights : String
  recommended_actions : List String
  risk_explanation : String
  urgency_score : Rat
  zudu_available : Bool
deriving DecidableEq

/-- The three default recommended actions of the fallback dictionary. -/
def fallbackActions : List String :=
  [ "Consult with healthcare provider for detailed evaluation"
  , "Continue monitoring vital signs regularly"
  , "Follow prescribed prenatal care schedule" ]

/-- `ZuduAIClient._get_fallback_response(reason)`. -/
def get_fallback_response (reason : String) : InsightResult :=
  { clinical_insights :=
      "Zudu AI unavailable (" ++ reason ++ "). Using clinical rules assessment."
    recommended_actions := fallbackActions
    risk_explanation :=
      "Standard clinical assessment completed. Consult healthcare provider for AI-enhanced insights."
    urgency_score := 5
    zudu_available := false }

/-- Python truthiness test `not self.api_key or self.api_key == "your_zudu_api_key_here"`:
the key is `None`, empty, or the placeholder. -/
def key_not_configured : Option String → Bool
  | none => true
  | some s => s == "" || s == "your_zudu_api_key_here"

/-- Result of `analyze_clinical_context` with its observable trace: the
payloads POSTed (one per HTTP attempt) and the back-off sleeps. -/
structure AnalyzeTrace where
  result : InsightResult
  requests : List ZuduPayload
  sleeps : List Nat
deriving DecidableEq

/-- `ZuduAIClient.analyze_clinical_context(vitals, risk_assessment)`:
short-circuits to the fallback when the key is unconfigured; otherwise
POSTs via `_make_request` (starting at attempt 1) and catches
`ZuduAPIException` and every other exception, mapping each to the
fallback dictionary. -/
def analyze_clinical_context (apiKey : Option String) (maxRetries : Nat)
    (behavior : Nat → HttpOutcome) (vitals : ClinicalVitals)
    (ra : RiskAssessmentInput) : AnalyzeTrace :=
  if key_not_configured apiKey then
    { result := get_fallback_response "API key not configured"
      requests := []
      sleeps := [] }
  else
    let payload := buildPayload vitals ra
    let t := make_request maxRetries behavior 1
    match t.outcome with
    | .ok response =>
        { result :=
            { clinical_insights := response.clinical_insights.getD "AI analysis completed"
              recommended_actions := response.recommended_actions.getD []
              risk_explanation := response.risk_explanation.getD "Risk factors analyzed"
              urgency_score := response.urgency_score.getD 5
              zudu_available := true }
          requests := t.attempts.map fun _ => payload
          sleeps := t.sleeps }
    | .error (.apiExc msg) =>
        { result := get_fallback_response msg
          requests := t.attempts.map fun _ => payload
          sleeps := t.sleeps }
    | .error (.otherExc _) =>
        { result := get_fallback_response "Unexpected error"
          requests := t.attempts.map fun _ => payload
          sleeps := t.sleeps }

/-! ## Registration and invite codes (`backend/app/api/auth.py`, `admin.py`) -/

/-- A document of the `invite_codes` Mongo collection as written by
`generate_invite_codes`.  `expires_key` records whether the document has an
`expires_at` key at all (the generator always writes one, possibly with a
`None` value, modelled by `expires_at = none`). -/
structure InviteDoc where
  code : String
  role : String
  is_used : Bool
  expires_key : Bool
  expires_at : Option Nat
  used_by : Option Nat
  used_at : Option Nat
deriving DecidableEq

/-- A document of the users collection (the fields the claims need). -/
structure UserDoc where
  id : Nat
  email : String
  role : String
deriving DecidableEq

/-- The Mongo collections touched by `register` / `generate_invite_codes`. -/
structure DbState where
  users : List UserDoc
  invites : List InviteDoc
deriving DecidableEq

/-- The fields of `RegisterRequest` that decide the endpoint's behaviour. -/
structure RegisterRequest where
  email : String
  role : String
  invite_code : Option String
deriving DecidableEq

/-- Python truthiness test `not request.invite_code`: `None` or `""`. -/
def codeFalsy : Option String → Bool
  | none => true
  | some s => s == ""

/-- What a call to `register` produces: a 201 with the new user's id and
role (standing for the JWT token response), an `HTTPException` with status
and detail, or an exception that escapes the handler (the `AttributeError`
raised by `expires_at.tzinfo` when the stored `expires_at` is `None`). -/
inductive RegisterOutcome where
  | created (userId : Nat) (role : String)
  | httpError (status : Nat) (detail : String)
  | exnAttributeError (msg : String)
deriving DecidableEq

/-- HTTP status the caller observes (FastAPI maps an uncaught exception to
a 500 response). -/
def statusOf : RegisterOutcome → Nat
  | .created _ _ => 201
  | .httpError s _ => s
  | .exnAttributeError _ => 500

/-- The SL-1 invite-code validation block of `register` (auth.py lines
63–104), run only for the doctor role.  Returns `some outcome` when the
block raises (an `HTTPException`, or the `AttributeError` reached when the
document has an `expires_at` key holding `None`), `none` when validation
passes.  Times are naturals; `now > t` is the `datetime.now(timezone.utc) >
expires_at` comparison. -/
def checkInvite (now : Nat) (req : RegisterRequest) (st : DbState) :
    Option RegisterOutcome :=
  if req.role == "doctor" then
    if codeFalsy req.invite_code then
      some (.httpError 403 "Doctor registration requires a valid invite code")
    else
      match st.invites.find? (fun d => d.code == req.invite_code.getD "") with
      | none => some (.httpError 403 "Invalid invite code")
      | some d =>
        if d.is_used then
          some (.httpError 403 "Invite code has already been used")
        else if d.expires_key then
          match d.expires_at with
          | none =>
              some (.exnAttributeError "NoneType object has no attribute tzinfo")
          | some t =>
              if now > t then some (.httpError 403 "Invite code has expired")
              else none
        else none
  else none

/-- `update_one({"code": c}, {"$set": {...}})`: mark the first document
with code `c` as used. -/
def markUsed (c : String) (uid : Nat) (now : Nat) :
    List InviteDoc → List InviteDoc
  | [] => []
  | d :: ds =>
    if d.code == c then
      { d with is_used := true, used_by := some uid, used_at := some now } :: ds
    else d :: markUsed c uid now ds

/-- The `register` endpoint of `auth.py`: reject duplicate email with 409,
run the doctor invite-code validation, then create the user and — for a
doctor with a truthy invite code — mark that code used.  `freshId` is the
id Mongo assigns to the inserted user. -/
def register (now freshId : Nat) (req : RegisterRequest) (st : DbState) :
    RegisterOutcome × DbState :=
  if (st.users.find? (fun u => u.email == req.email)).isSome then
    (.httpError 409 "Email already registered", st)
  else
    match checkInvite now req st with
    | some out => (out, st)
    | none =>
      let users' := st.users ++ [{ id := freshId, email := req.email, role := req.role }]
      let invites' :=
        if req.role == "doctor" && !codeFalsy req.invite_code then
          markUsed (req.invite_code.getD "") freshId now st.invites
        else st.invites
      (.created freshId req.role, { users := users', invites := invites' })

/-- `expires_at` computed by `generate_invite_codes`: `None` unless
`request.expires_days` is truthy, in which case now + the requested days
(days as the time unit). -/
def expiresOf (now : Nat) : Option Nat → Option Nat
  | none => none
  | some d => if d == 0 then none else some (now + d)

/-- The `generate_invite_codes` endpoint of `admin.py`: one insert per
requested code (`codes` stands for the `secrets.token_urlsafe(16)` draws);
every document is written with `is_used = False` and an `expires_at` key,
whose value is `None` when no expiration was requested. -/
def generate_invite_codes (now : Nat) (role : String) (codes : List String)
    (expiresDays : Option Nat) (st : DbState) : DbState :=
  { st with
    invites := st.invites ++ codes.map fun c =>
      { code := c
        role := role
        is_used := false
        expires_key := true
        expires_at := expiresOf now expiresDays
        used_by := none
        used_at := none } }

/-- An operation of the auth/admin surface, for sequential executions. -/
inductive DbOp where
  | regOp (now freshId : Nat) (req : RegisterRequest)
  | genOp (now : Nat) (role : String) (codes : List String) (expiresDays : Option Nat)

def applyOp (st : DbState) : DbOp → DbState
  | .regOp now fid req => (register now fid req st).2
  | .genOp now role codes ed => generate_invite_codes now role codes ed st

def runOps (st : DbState) (ops : List DbOp) : DbState := ops.foldl applyOp st

/-- The stored document `find_one({"code": c})` returns has `is_used` set
(false when there is no such document — the state `register`'s reuse check
reads). -/
def usedAt (c : String) (st : DbState) : Bool :=
  ((st.invites.find? (fun d => d.code == c)).map (fun d => d.is_used)).getD false

/-! ## FSM statistics (`admin.py` health endpoint) and the circuit-breaker
pipeline, modelled from the spec -/

/-- Engine source of a risk assessment (spec §3). -/
inductive EngineSource where
  | rules
  | model
  | rulesFallback
deriving DecidableEq

/-- A `HoneypotEvent` record (spec §3). -/
structure HoneypotEvent where
  fingerprint : String
  reason : String
  timestamp : Nat
deriving DecidableEq

/-- A persisted `RiskAssessment` record (the fields the statistics read). -/
structure AssessmentRecord where
  source : EngineSource
  tier : Nat
deriving DecidableEq

/-- The ledger's two record streams: assessment records
(`triage_decisions`) and honeypot records (`honeypot_alerts`). -/
structure LedgerState where
  triage_decisions : List AssessmentRecord
  honeypot_alerts : List HoneypotEvent
deriving DecidableEq

/-- The aggregate statistics the health endpoint reports. -/
structure FsmStatistics where
  total_assessments : Nat
  honeypot_triggers : Nat
deriving DecidableEq

/-- Modelled from the spec: `FSMTriageRepository.get_fsm_statistics`
(`backend/app/db/fsm_repository.py` is not among the provided sources).
Per spec §4.6 and `test_honeypot_count.py`, the honeypot count is the
number of documents of the `honeypot_alerts` collection — the
HoneypotEvents' own record stream — not of the assessment collection. -/
def get_fsm_statistics (st : LedgerState) : FsmStatistics :=
  { total_assessments := st.triage_decisions.length
    honeypot_triggers := st.honeypot_alerts.length }

/-- Circuit-breaker state (spec §4.4). -/
inductive CBState where
  | closed
  | opened
  | halfOpen
deriving DecidableEq

/-- Circuit-breaker shared state: state plus consecutive-failure counter. -/
structure Breaker where
  state : CBState
  failures : Nat
deriving DecidableEq

/-- Output of a successful model-classifier call (spec §4.3). -/
structure ModelOut where
  tier : Nat
  confidence : Rat
deriving DecidableEq

/-- A produced `RiskAssessment` (the fields claim C7 is about). -/
structure Assessment where
  tier : Nat
  confidence : Rat
  alerts : List String
  source : EngineSource
deriving DecidableEq

/-- One submission's inputs to the pipeline step: the rule classifier's
output (always present), the model call's outcome when attempted (`none` =
failed/unavailable), and whether the breaker's cool-down has elapsed. -/
structure ClassifyInput where
  ruleTier : Nat
  ruleConfidence : Rat
  alerts : List String
  modelResult : Option ModelOut
  cooldownElapsed : Bool
deriving DecidableEq

/-- The breaker state this request is served under: an OPEN breaker whose
cool-down has elapsed moves to HALF_OPEN first (spec §4.4). -/
def effectiveState (b : Breaker) (cooldownElapsed : Bool) : CBState :=
  if b.state == .opened && cooldownElapsed then .halfOpen else b.state

/-- Modelled from the spec: one classification through the circuit-breaker
pipeline (`backend/app/engine/circuit.py` and the triage pipeline are not
among the provided sources; spec §4.4–4.5).  OPEN serves the rule result
with source RULES_FALLBACK and never attempts the model; HALF_OPEN lets
one probe through; CLOSED attempts the model, counting consecutive
failures up to the threshold.  When the model result is available the
final tier is the maximum of model and rule tiers and the source is MODEL;
otherwise the rule result stands with source RULES_FALLBACK.  Returns the
state the request was served under, the assessment, and the new breaker. -/
def classifyStep (threshold : Nat) (b : Breaker) (inp : ClassifyInput) :
    CBState × Assessment × Breaker :=
  let ruleOnly : Assessment :=
    { tier := inp.ruleTier
      confidence := inp.ruleConfidence
      alerts := inp.alerts
      source := .rulesFallback }
  match effectiveState b inp.cooldownElapsed with
  | .opened => (.opened, ruleOnly, { b with state := .opened })
  | .halfOpen =>
    match inp.modelResult with
    | some m =>
        (.halfOpen,
         { tier := max m.tier inp.ruleTier
           confidence := m.confidence
           alerts := inp.alerts
           source := .model },
         { state := .closed, failures := 0 })
    | none =>
        (.halfOpen, ruleOnly, { state := .opened, failures := b.failures + 1 })
  | .closed =>
    match inp.modelResult with
    | some m =>
        (.closed,
         { tier := max m.tier inp.ruleTier
           confidence := m.confidence
           alerts := inp.alerts
           source := .model },
         { state := .closed, failures := 0 })
    | none =>
        let f := b.failures + 1
        (.closed, ruleOnly,
         { state := if threshold ≤ f then .opened else .closed, failures := f })

/-- Run the pipeline over a sequence of submissions, pairing every
produced assessment with the breaker state it was served under. -/
def runPipeline (threshold : Nat) (b : Breaker) :
    List ClassifyInput → List (CBState × Assessment)
  | [] => []
  | inp :: rest =>
    let r := classifyStep threshold b inp
    (r.1, r.2.1) :: runPipeline threshold r.2.2 rest

/-! ## Concrete sample inputs used by witnesses and counterexamples -/

def sampleVitals : ClinicalVitals := ⟨30, 120, 80, 5, 37, 80, 98, 28⟩

def sampleRA : RiskAssessmentInput := ⟨some "HIGH", some ["HYPERTENSIVE_CRISIS"]⟩

def sampleResp : ZuduResponse :=
  ⟨some "Narrative", some ["Action A"], some "Explained", some 7⟩

def cxSt10 : DbState := generate_invite_codes 100 "doctor" ["INV1"] none ⟨[], []⟩

def cxReq10 : RegisterRequest := ⟨"doc@x.org", "doctor", some "INV1"⟩

def cxSt9 : DbState := generate_invite_codes 0 "doctor" ["INV2"] (some 30) ⟨[], []⟩

def cxReq9 : RegisterRequest := ⟨"a@x.org", "doctor", some "INV2"⟩

def wSt9 : DbState := ⟨[], [⟨"INV3", "doctor", false, true, some 50, none, none⟩]⟩

def wReq9 : RegisterRequest := ⟨"w@x.org", "doctor", some "INV3"⟩

def wReq9b : RegisterRequest := ⟨"z@x.org", "doctor", some "INV3"⟩

def wOps9 : List DbOp := [.genOp 5 "doctor" ["INV4"] none]

def wInp7 : ClassifyInput := ⟨2, 1, ["HYPOXIA"], some ⟨3, 1⟩, false⟩

def wPair7 : CBState × Assessment :=
  (CBState.opened, ⟨2, 1, ["HYPOXIA"], EngineSource.rulesFallback⟩)

/-! ## Lemmas about the retry loop -/

lemma make_request_ok (R : Nat) (behavior : Nat → HttpOutcome) (a : Nat)
    (resp : ZuduResponse) (h : behavior a = .ok resp) :
    make_request R behavior a = ⟨.ok resp, [a], []⟩ := by
  unfold make_request
  cases hg : R - a <;> simp [makeRequestAux, h]

lemma make_request_429 (R : Nat) (behavior : Nat → HttpOutcome) (a : Nat)
    (h : behavior a = .status429) :
    make_request R behavior a = ⟨.error (.apiExc "Rate limit exceeded"), [a], []⟩ := by
  unfold make_request
  cases hg : R - a <;> simp [makeRequestAux, h]

lemma makeRequestAux_retry_all (behavior : Nat → HttpOutcome)
    (hfail : ∀ n, behavior n = .timeout ∨ ∃ m, behavior n = .connError m) :
    ∀ gas a, (makeRequestAux behavior gas a).attempts = List.range' a (gas + 1) ∧
      (makeRequestAux behavior gas a).sleeps =
        (List.range' a gas).map (fun k => 2 ^ k) ∧
      ∃ msg, (makeRequestAux behavior gas a).outcome = .error (.apiExc msg) := by
  intro gas
  induction gas with
  | zero =>
    intro a
    rcases hfail a with h | ⟨m, h⟩
    · exact ⟨by simp [makeRequestAux, h], by simp [makeRequestAux, h],
        "Request timeout after retries", by simp [makeRequestAux, h]⟩
    · exact ⟨by simp [makeRequestAux, h], by simp [makeRequestAux, h],
        "Connection error: " ++ m, by simp [makeRequestAux, h]⟩
  | succ g ih =>
    intro a
    obtain ⟨h1, h2, msg, h3⟩ := ih (a + 1)
    rcases hfail a with h | ⟨m, h⟩ <;>
      exact ⟨by simp [makeRequestAux, h, h1, List.range'_succ],
        by simp [makeRequestAux, h, h2, List.range'_succ],
        msg, by simp [makeRequestAux, h, h3]⟩

lemma makeRequestAux_attempts (behavior : Nat → HttpOutcome) :
    ∀ gas a, ∃ n, (makeRequestAux behavior gas a).attempts = List.range' a n ∧
      1 ≤ n ∧ n ≤ gas + 1 := by
  intro gas
  induction gas with
  | zero =>
    intro a
    refine ⟨1, ?_, le_refl 1, le_refl 1⟩
    cases h : behavior a <;> simp [makeRequestAux, h, List.range']
  | succ g ih =>
    intro a
    cases h : behavior a with
    | timeout =>
      obtain ⟨n, h1, hn1, hn2⟩ := ih (a + 1)
      exact ⟨n + 1, by simp [makeRequestAux, h, h1, List.range'_succ], by omega, by omega⟩
    | connError m =>
      obtain ⟨n, h1, hn1, hn2⟩ := ih (a + 1)
      exact ⟨n + 1, by simp [makeRequestAux, h, h1, List.range'_succ], by omega, by omega⟩
    | _ =>
      exact ⟨1, by simp [makeRequestAux, h, List.range'], by omega, by omega⟩

/-! ## Claims about the external insight client -/

/-- C1: for every vitals/risk-assessment input, whenever `_make_request`
ends in an exception of any class, `analyze_clinical_context` does not
propagate it but returns the deterministic fallback dictionary: default
narrative template, the three default recommended actions, neutral urgency
score 5, and `zudu_available = false`.  (In the embedding every exception
is an `Except.error` value; `analyze_clinical_context` is total, so nothing
escapes to the caller.) -/
theorem zudu_enrichment_failure_fallback (apiKey : Option String) (R : Nat)
    (behavior : Nat → HttpOutcome) (vitals : ClinicalVitals)
    (ra : RiskAssessmentInput) (e : ZuduError)
    (hfail : (make_request R behavior 1).outcome = .error e) :
    ∃ reason,
      (analyze_clinical_context apiKey R behavior vitals ra).result =
        get_fallback_response reason ∧
      (get_fallback_response reason).zudu_available = false ∧
      (get_fallback_response reason).urgency_score = 5 ∧
      (get_fallback_response reason).recommended_actions = fallbackActions ∧
      (get_fallback_response reason).clinical_insights =
        "Zudu AI unavailable (" ++ reason ++ "). Using clinical rules assessment." := by
  by_cases hk : key_not_configured apiKey = true
  · exact ⟨"API key not configured", by simp [analyze_clinical_context, hk], rfl, rfl, rfl, rfl⟩
  · cases e with
    | apiExc msg =>
      exact ⟨msg, by simp [analyze_clinical_context, hk, hfail], rfl, rfl, rfl, rfl⟩
    | otherExc msg =>
      exact ⟨"Unexpected error", by simp [analyze_clinical_context, hk, hfail],
        rfl, rfl, rfl, rfl⟩

/-- C1 witness: a concrete run (timeout on every attempt, `max_retries = 2`)
hitting the fallback. -/
theorem zudu_enrichment_failure_fallback_witness :
    ∃ reason,
      (analyze_clinical_context (some "key") 2 (fun _ => .timeout)
          sampleVitals sampleRA).result = get_fallback_response reason ∧
      (get_fallback_response reason).zudu_available = false ∧
      (get_fallback_response reason).urgency_score = 5 ∧
      (get_fallback_response reason).recommended_actions = fallbackActions ∧
      (get_fallback_response reason).clinical_insights =
        "Zudu AI unavailable (" ++ reason ++ "). Using clinical rules assessment." :=
  zudu_enrichment_failure_fallback (some "key") 2 (fun _ => .timeout)
    sampleVitals sampleRA (.apiExc "Request timeout after retries") (by decide)

/-- C2: when every attempt fails with a timeout or connection error, the
client makes exactly `max_retries` attempts (so at most `max_retries`
retries), sleeping exactly `2 ^ attempt` time units after attempt number
`attempt`, and the caller receives the fallback with `zudu_available =
false` and the non-empty default recommended actions. -/
theorem zudu_retry_backoff_exhaustion (apiKey : Option String) (R : Nat)
    (behavior : Nat → HttpOutcome) (vitals : ClinicalVitals)
    (ra : RiskAssessmentInput)
    (hkey : key_not_configured apiKey = false) (hR : 1 ≤ R)
    (hfail : ∀ n, behavior n = .timeout ∨ ∃ m, behavior n = .connError m) :
    (analyze_clinical_context apiKey R behavior vitals ra).requests.length = R ∧
    (analyze_clinical_context apiKey R behavior vitals ra).requests.length - 1 ≤ R ∧
    (make_request R behavior 1).attempts = List.range' 1 R ∧
    (analyze_clinical_context apiKey R behavior vitals ra).sleeps =
      (List.range' 1 (R - 1)).map (fun k => 2 ^ k) ∧
    (analyze_clinical_context apiKey R behavior vitals ra).result.zudu_available = false ∧
    (analyze_clinical_context apiKey R behavior vitals ra).result.recommended_actions =
      fallbackActions ∧
    fallbackActions ≠ [] := by
  obtain ⟨ha, hs, msg, ho⟩ := makeRequestAux_retry_all behavior hfail (R - 1) 1
  have hmk : make_request R behavior 1 = makeRequestAux behavior (R - 1) 1 := rfl
  have hRR : R - 1 + 1 = R := Nat.sub_add_cancel hR
  rw [hRR] at ha
  refine ⟨?_, ?_, by rw [hmk, ha], ?_, ?_, ?_, by simp [fallbackActions]⟩ <;>
    simp [analyze_clinical_context, hkey, hmk, ho, ha, hs, get_fallback_response]

/-- C2 witness: `max_retries = 3`, every attempt times out. -/
theorem zudu_retry_backoff_exhaustion_witness :
    (analyze_clinical_context (some "key") 3 (fun _ => .timeout)
        sampleVitals sampleRA).requests.length = 3 ∧
    (analyze_clinical_context (some "key") 3 (fun _ => .timeout)
        sampleVitals sampleRA).requests.length - 1 ≤ 3 ∧
    (make_request 3 (fun _ => .timeout) 1).attempts = List.range' 1 3 ∧
    (analyze_clinical_context (some "key") 3 (fun _ => .timeout)
        sampleVitals sampleRA).sleeps =
      (List.range' 1 (3 - 1)).map (fun k => 2 ^ k) ∧
    (analyze_clinical_context (some "key") 3 (fun _ => .timeout)
        sampleVitals sampleRA).result.zudu_available = false ∧
    (analyze_clinical_context (some "key") 3 (fun _ => .timeout)
        sampleVitals sampleRA).result.recommended_actions = fallbackActions ∧
    fallbackActions ≠ [] :=
  zudu_retry_backoff_exhaustion (some "key") 3 (fun _ => .timeout)
    sampleVitals sampleRA (by decide) (by decide) (fun n => Or.inl rfl)

/-- C3 counterexample: with `max_retries = 3` and the service answering
HTTP 429 to every request, `analyze_clinical_context` makes exactly one
attempt, not `max_retries = 3`: a 429 raises `ZuduAPIException`, which the
retry handlers (timeout / connection error only) do not catch. -/
theorem zudu_rate_limit_cx :
    (analyze_clinical_context (some "key") 3 (fun _ => .status429)
        sampleVitals sampleRA).requests.length = 1 ∧
    ¬((analyze_clinical_context (some "key") 3 (fun _ => .status429)
        sampleVitals sampleRA).requests.length = 3) := by
  constructor <;> decide

/-- C3 (amended): if the service responds HTTP 429 to every request,
`analyze_clinical_context` makes exactly one attempt — rate limiting is a
non-retryable error — performs no back-off sleep, and returns the fallback
with `zudu_available = false`. -/
theorem zudu_rate_limit_single_attempt (apiKey : Option String) (R : Nat)
    (behavior : Nat → HttpOutcome) (vitals : ClinicalVitals)
    (ra : RiskAssessmentInput)
    (hkey : key_not_configured apiKey = false)
    (h429 : ∀ n, behavior n = .status429) :
    (analyze_clinical_context apiKey R behavior vitals ra).requests.length = 1 ∧
    (analyze_clinical_context apiKey R behavior vitals ra).sleeps = [] ∧
    (analyze_clinical_context apiKey R behavior vitals ra).result =
      get_fallback_response "Rate limit exceeded" ∧
    (analyze_clinical_context apiKey R behavior vitals ra).result.zudu_available =
      false := by
  have hmk := make_request_429 R behavior 1 (h429 1)
  refine ⟨?_, ?_, ?_, ?_⟩ <;> simp [analyze_clinical_context, hkey, hmk]
  simp [get_fallback_response]

/-- C3 (amended) witness: `max_retries = 3`, always-429 service. -/
theorem zudu_rate_limit_single_attempt_witness :
    (analyze_clinical_context (some "key") 3 (fun _ => .status429)
        sampleVitals sampleRA).requests.length = 1 ∧
    (analyze_clinical_context (some "key") 3 (fun _ => .status429)
        sampleVitals sampleRA).sleeps = [] ∧
    (analyze_clinical_context (some "key") 3 (fun _ => .status429)
        sampleVitals sampleRA).result = get_fallback_response "Rate limit exceeded" ∧
    (analyze_clinical_context (some "key") 3 (fun _ => .status429)
        sampleVitals sampleRA).result.zudu_available = false :=
  zudu_rate_limit_single_attempt (some "key") 3 (fun _ => .status429)
    sampleVitals sampleRA (by decide) (fun n => rfl)

/-- C4: a missing, empty or placeholder API key short-circuits
`analyze_clinical_context` to the fallback with no HTTP request and no
sleep. -/
theorem zudu_missing_key_short_circuit (apiKey : Option String) (R : Nat)
    (behavior : Nat → HttpOutcome) (vitals : ClinicalVitals)
    (ra : RiskAssessmentInput)
    (h : key_not_configured apiKey = true) :
    analyze_clinical_context apiKey R behavior vitals ra =
      ⟨get_fallback_response "API key not configured", [], []⟩ := by
  simp [analyze_clinical_context, h]

/-- C4 witness: `api_key = None`. -/
theorem zudu_missing_key_short_circuit_witness :
    analyze_clinical_context none 3 (fun _ => .timeout) sampleVitals sampleRA =
      ⟨get_fallback_response "API key not configured", [], []⟩ :=
  zudu_missing_key_short_circuit none 3 (fun _ => .timeout)
    sampleVitals sampleRA (by decide)

/-- C5: with a configured key and an HTTP 200 on the first attempt, exactly
one request is sent, carrying the eight vitals fields, the current risk
tier and the alert list; the returned dictionary carries the response's
narrative, recommended actions, risk explanation and urgency score, with
`zudu_available = true`. -/
theorem zudu_success_contract (apiKey : Option String) (R : Nat)
    (behavior : Nat → HttpOutcome) (vitals : ClinicalVitals)
    (ra : RiskAssessmentInput) (resp : ZuduResponse)
    (narrative : String) (acts : List String) (expl : String) (u : Rat)
    (tier : String) (alerts : List String)
    (hkey : key_not_configured apiKey = false)
    (hok : behavior 1 = .ok resp)
    (hn : resp.clinical_insights = some narrative)
    (hacts : resp.recommended_actions = some acts)
    (hexpl : resp.risk_explanation = some expl)
    (hu : resp.urgency_score = some u)
    (htier : ra.risk_level = some tier)
    (halerts : ra.alerts = some alerts) :
    (analyze_clinical_context apiKey R behavior vitals ra).requests =
      [buildPayload vitals ra] ∧
    (buildPayload vitals ra).v_age = vitals.age ∧
    (buildPayload vitals ra).v_systolic_bp = vitals.systolic_bp ∧
    (buildPayload vitals ra).v_diastolic_bp = vitals.diastolic_bp ∧
    (buildPayload vitals ra).v_blood_sugar = vitals.blood_sugar ∧
    (buildPayload vitals ra).v_body_temp = vitals.body_temp ∧
    (buildPayload vitals ra).v_heart_rate = vitals.heart_rate ∧
    (buildPayload vitals ra).v_blood_oxygen = vitals.blood_oxygen ∧
    (buildPayload vitals ra).v_gestational_weeks = vitals.gestational_weeks ∧
    (buildPayload vitals ra).current_risk = tier ∧
    (buildPayload vitals ra).alerts = alerts ∧
    (analyze_clinical_context apiKey R behavior vitals ra).result =
      ⟨narrative, acts, expl, u, true⟩ := by
  have hmk := make_request_ok R behavior 1 resp hok
  refine ⟨?_, rfl, rfl, rfl, rfl, rfl, rfl, rfl, rfl,
    by simp [buildPayload, htier], by simp [buildPayload, halerts], ?_⟩ <;>
    simp [analyze_clinical_context, hkey, hmk, hn, hacts, hexpl, hu]

/-- C5 witness: a concrete 200 response. -/
theorem zudu_success_contract_witness :
    (analyze_clinical_context (some "key") 3 (fun _ => .ok sampleResp)
        sampleVitals sampleRA).requests = [buildPayload sampleVitals sampleRA] ∧
    (buildPayload sampleVitals sampleRA).v_age = sampleVitals.age ∧
    (buildPayload sampleVitals sampleRA).v_systolic_bp = sampleVitals.systolic_bp ∧
    (buildPayload sampleVitals sampleRA).v_diastolic_bp = sampleVitals.diastolic_bp ∧
    (buildPayload sampleVitals sampleRA).v_blood_sugar = sampleVitals.blood_sugar ∧
    (buildPayload sampleVitals sampleRA).v_body_temp = sampleVitals.body_temp ∧
    (buildPayload sampleVitals sampleRA).v_heart_rate = sampleVitals.heart_rate ∧
    (buildPayload sampleVitals sampleRA).v_blood_oxygen = sampleVitals.blood_oxygen ∧
    (buildPayload sampleVitals sampleRA).v_gestational_weeks =
      sampleVitals.gestational_weeks ∧
    (buildPayload sampleVitals sampleRA).current_risk = "HIGH" ∧
    (buildPayload sampleVitals sampleRA).alerts = ["HYPERTENSIVE_CRISIS"] ∧
    (analyze_clinical_context (some "key") 3 (fun _ => .ok sampleResp)
        sampleVitals sampleRA).result =
      ⟨"Narrative", ["Action A"], "Explained", 7, true⟩ :=
  zudu_success_contract (some "key") 3 (fun _ => .ok sampleResp)
    sampleVitals sampleRA sampleResp "Narrative" ["Action A"] "Explained" 7
    "HIGH" ["HYPERTENSIVE_CRISIS"] (by decide) rfl rfl rfl rfl rfl rfl rfl

/-- C8: `_make_request` terminates for every starting attempt number at
least 1: the trace of attempt numbers is the consecutive, strictly
increasing sequence starting at `attempt`, and the number of recursive
self-invocations (its length minus one) is at most
`max_retries - attempt`, hence never exceeds `max_retries`. -/
theorem make_request_termination (R : Nat) (behavior : Nat → HttpOutcome)
    (a : Nat) (h1 : 1 ≤ a) :
    ∃ n, (make_request R behavior a).attempts = List.range' a n ∧ 1 ≤ n ∧
      n - 1 ≤ R - a ∧ n - 1 ≤ R := by
  obtain ⟨n, hn, hn1, hn2⟩ := makeRequestAux_attempts behavior (R - a) a
  exact ⟨n, hn, hn1, by omega, by omega⟩

/-- C8 witness: `max_retries = 3`, all attempts time out, start at 1. -/
theorem make_request_termination_witness :
    ∃ n, (make_request 3 (fun _ => .timeout) 1).attempts = List.range' 1 n ∧
      1 ≤ n ∧ n - 1 ≤ 3 - 1 ∧ n - 1 ≤ 3 :=
  make_request_termination 3 (fun _ => .timeout) 1 (by decide)

/-! ## Lemmas about invite codes -/

lemma firstUsed_markUsed (c c' : String) (uid now : Nat) (l : List InviteDoc)
    (h : usedAt c ⟨[], l⟩ = true) : usedAt c ⟨[], markUsed c' uid now l⟩ = true := by
  induction l with
  | nil => simp [usedAt] at h
  | cons d ds ih =>
    by_cases hc' : (d.code == c') = true
    · by_cases hc : (d.code == c) = true
      · simp [usedAt, markUsed, hc', hc, List.find?_cons]
      · simp [usedAt, markUsed, hc', hc, List.find?_cons] at h ⊢
        exact h
    · by_cases hc : (d.code == c) = true
      · simp [usedAt, markUsed, hc', hc, List.find?_cons] at h ⊢
        exact h
      · simp [usedAt, markUsed, hc', hc, List.find?_cons] at h ⊢
        simpa [usedAt, List.find?_cons] using ih (by simpa [usedAt] using h)

lemma firstUsed_markUsed_self (c : String) (uid now : Nat) (l : List InviteDoc)
    (d : InviteDoc) (hf : l.find? (fun x => x.code == c) = some d) :
    usedAt c ⟨[], markUsed c uid now l⟩ = true := by
  induction l with
  | nil => simp at hf
  | cons e es ih =>
    by_cases hc : (e.code == c) = true
    · simp [usedAt, markUsed, hc, List.find?]
    · simp [List.find?, hc] at hf
      simp [usedAt, markUsed, hc, List.find?] at ih ⊢
      exact ih hf

lemma firstUsed_append (c : String) (l₁ l₂ : List InviteDoc)
    (h : usedAt c ⟨[], l₁⟩ = true) : usedAt c ⟨[], l₁ ++ l₂⟩ = true := by
  simp only [usedAt] at h ⊢
  rcases hf : l₁.find? (fun d => d.code == c) with _ | d
  · simp [hf] at h
  · simp [List.find?_append, hf] at h ⊢
    exact h

lemma register_preserves_used (c : String) (now fid : Nat)
    (req : RegisterRequest) (st : DbState)
    (h : usedAt c st = true) : usedAt c (register now fid req st).2 = true := by
  by_cases hdup : ((st.users.find? (fun u => u.email == req.email)).isSome) = true
  · simpa [register, hdup] using h
  · cases hchk : checkInvite now req st with
    | some out => simpa [register, hdup, hchk] using h
    | none =>
      by_cases hdr : (req.role == "doctor" && !codeFalsy req.invite_code) = true
      · simp [register, hdup, hchk, hdr]
        have : usedAt c ⟨[], st.invites⟩ = true := by simpa [usedAt] using h
        simpa [usedAt] using
          firstUsed_markUsed c (req.invite_code.getD "") fid now st.invites this
      · simpa [register, hdup, hchk, hdr, usedAt] using h

lemma generate_preserves_used (c : String) (now : Nat) (role : String)
    (codes : List String) (ed : Option Nat) (st : DbState)
    (h : usedAt c st = true) :
    usedAt c (generate_invite_codes now role codes ed st) = true := by
  have h' : usedAt c ⟨[], st.invites⟩ = true := by simpa [usedAt] using h
  exact firstUsed_append c st.invites
    (codes.map fun c' =>
      { code := c'
        role := role
        is_used := false
        expires_key := true
        expires_at := expiresOf now ed
        used_by := none
        used_at := none }) h'

lemma runOps_preserves_used (c : String) (ops : List DbOp) :
    ∀ st : DbState, usedAt c st = true → usedAt c (runOps st ops) = true := by
  induction ops with
  | nil => intro st h; simpa [runOps] using h
  | cons op rest ih =>
    intro st h
    have h' : usedAt c (applyOp st op) = true := by
      cases op with
      | regOp now fid req => exact register_preserves_used c now fid req st h
      | genOp now role codes ed => exact generate_preserves_used c now role codes ed st h
    simpa [runOps] using ih (applyOp st op) h'

lemma checkInvite_used (now : Nat) (req : RegisterRequest) (st : DbState)
    (c : String) (hrole : req.role = "doctor") (hcode : req.invite_code = some c)
    (hused : usedAt c st = true) :
    ∃ d, checkInvite now req st = some (.httpError 403 d) := by
  by_cases hc : (c == "") = true
  · exact ⟨"Doctor registration requires a valid invite code",
      by simp [checkInvite, hrole, hcode, codeFalsy, hc]⟩
  · rcases hf : st.invites.find? (fun d => d.code == c) with _ | d
    · simp [usedAt, hf] at hused
    · have hd : d.is_used = true := by simpa [usedAt, hf] using hused
      exact ⟨"Invite code has already been used",
        by simp [checkInvite, hrole, hcode, codeFalsy, hc, hf, hd]⟩

lemma checkInvite_not_created (now : Nat) (req : RegisterRequest) (st : DbState)
    (out : RegisterOutcome) (h : checkInvite now req st = some out) :
    statusOf out ≠ 201 := by
  unfold checkInvite at h
  repeat' split at h
  all_goals first
    | (injection h with h; subst h; simp [statusOf])
    | (injection h)

lemma register_rejects_used (now fid : Nat) (req : RegisterRequest)
    (st : DbState) (c : String)
    (hrole : req.role = "doctor") (hcode : req.invite_code = some c)
    (hused : usedAt c st = true) :
    (register now fid req st).2 = st ∧
    (statusOf (register now fid req st).1 = 403 ∨
      statusOf (register now fid req st).1 = 409) ∧
    ((st.users.find? (fun u => u.email == req.email)).isSome = false →
      statusOf (register now fid req st).1 = 403) := by
  by_cases hdup : ((st.users.find? (fun u => u.email == req.email)).isSome) = true
  · refine ⟨by simp [register, hdup], Or.inr (by simp [register, hdup, statusOf]), ?_⟩
    intro hfresh
    rw [hfresh] at hdup
    exact absurd hdup (by simp)
  · obtain ⟨d, hchk⟩ := checkInvite_used now req st c hrole hcode hused
    exact ⟨by simp [register, hdup, hchk],
      Or.inl (by simp [register, hdup, hchk, statusOf]),
      fun _ => by simp [register, hdup, hchk, statusOf]⟩

lemma register_success_marks (now fid : Nat) (req : RegisterRequest)
    (st : DbState) (c : String)
    (hrole : req.role = "doctor") (hcode : req.invite_code = some c)
    (hsucc : statusOf (register now fid req st).1 = 201) :
    usedAt c (register now fid req st).2 = true := by
  by_cases hdup : ((st.users.find? (fun u => u.email == req.email)).isSome) = true
  · simp [register, hdup, statusOf] at hsucc
  · cases hchk : checkInvite now req st with
    | some out =>
      have hno := checkInvite_not_created now req st out hchk
      simp [register, hdup, hchk] at hsucc
      exact absurd hsucc hno
    | none =>
      have hcf : codeFalsy req.invite_code = false := by
        by_contra h'
        have h'' : codeFalsy req.invite_code = true := by
          cases hcv : codeFalsy req.invite_code
          · exact absurd hcv h'
          · rfl
        simp [checkInvite, hrole, h''] at hchk
      have hcf' : codeFalsy (some c) = false := by rw [← hcode]; exact hcf
      obtain ⟨d, hf⟩ : ∃ d, st.invites.find? (fun x => x.code == c) = some d := by
        rcases hfind : st.invites.find? (fun x => x.code == c) with _ | d
        · exfalso
          simp [checkInvite, hrole, hcode, hcf', hfind] at hchk
        · exact ⟨d, hfind⟩
      have hdr : (req.role == "doctor" && !codeFalsy req.invite_code) = true := by
        simp [hrole, hcf]
      simp only [register, hdup, hchk, hdr]
      simp only [Bool.not_eq_true] at hdup
      simp only [hdup, Bool.false_eq_true, if_false, hchk, hdr, if_true]
      have := firstUsed_markUsed_self c fid now st.invites d hf
      simpa [usedAt, hcode] using this

/-! ## Claims C6, C7, C9, C10 -/

/-- C6: the honeypot trigger count reported by the aggregate statistics is
the number of records in the honeypot record stream, for every ledger
state, and it does not depend on the assessment records. -/
theorem fsm_honeypot_count (st : LedgerState) :
    (get_fsm_statistics st).honeypot_triggers = st.honeypot_alerts.length ∧
    ∀ ds : List AssessmentRecord,
      (get_fsm_statistics
          ⟨ds, st.honeypot_alerts⟩).honeypot_triggers =
        (get_fsm_statistics st).honeypot_triggers := by
  exact ⟨rfl, fun ds => rfl⟩

lemma runPipeline_open_fallback (threshold : Nat) :
    ∀ (ins : List ClassifyInput) (b : Breaker) (p : CBState × Assessment),
      p ∈ runPipeline threshold b ins → p.1 = CBState.opened →
      p.2.source = EngineSource.rulesFallback := by
  intro ins
  induction ins with
  | nil => intro b p hp _; simp [runPipeline] at hp
  | cons inp rest ih =>
    intro b p hp hopen
    simp only [runPipeline, List.mem_cons] at hp
    rcases hp with hp | hp
    · subst hp
      cases hes : effectiveState b inp.cooldownElapsed <;>
        cases hm : inp.modelResult <;>
        simp_all [classifyStep, hes, hm]
    · exact ih _ p hp hopen

/-- C7: every assessment produced by any run of the pipeline, from any
starting breaker state, has exactly one engine source, and whenever the
request was served with the breaker OPEN the source is RULES_FALLBACK,
never MODEL. -/
theorem breaker_open_rules_fallback (threshold : Nat) (b : Breaker)
    (ins : List ClassifyInput) (p : CBState × Assessment)
    (hp : p ∈ runPipeline threshold b ins) :
    (∃! s : EngineSource, p.2.source = s) ∧
    (p.1 = CBState.opened → p.2.source = EngineSource.rulesFallback) :=
  ⟨⟨p.2.source, rfl, fun _ hy => hy.symm⟩,
    runPipeline_open_fallback threshold ins b p hp⟩

/-- C7 witness: a one-submission run under an OPEN breaker. -/
theorem breaker_open_rules_fallback_witness :
    (∃! s : EngineSource, wPair7.2.source = s) ∧
    (wPair7.1 = CBState.opened → wPair7.2.source = EngineSource.rulesFallback) :=
  breaker_open_rules_fallback 5 ⟨CBState.opened, 5⟩ [wInp7] wPair7 (by decide)

/-- C9 counterexample: after a doctor registration succeeds with invite
code INV2, a second register call presenting INV2 for the doctor role but
reusing the first registration's email is rejected with HTTP 409, not 403 —
the duplicate-email check precedes the invite-code check. -/
theorem invite_reuse_duplicate_email_cx :
    statusOf (register 1 1 cxReq9 cxSt9).1 = 201 ∧
    statusOf (register 2 2 cxReq9 (register 1 1 cxReq9 cxSt9).2).1 = 409 ∧
    ¬(statusOf (register 2 2 cxReq9 (register 1 1 cxReq9 cxSt9).2).1 = 403) := by
  refine ⟨by decide, by decide, by decide⟩

/-- C9 (amended): invite codes are single-use: after a doctor registration
succeeds using invite code c, the stored document for c has `is_used`
true, and — across any further sequence of register / generate operations
executed sequentially — every subsequent register call presenting c for
the doctor role is rejected without creating a user (the state is
unchanged): with HTTP 403 when the request's email is not already
registered, and with HTTP 409 when it is. -/
theorem invite_codes_single_use (st0 : DbState) (now fid : Nat)
    (req : RegisterRequest) (c : String)
    (hrole : req.role = "doctor") (hcode : req.invite_code = some c)
    (hsucc : statusOf (register now fid req st0).1 = 201) :
    usedAt c (register now fid req st0).2 = true ∧
    ∀ (ops : List DbOp) (now' fid' : Nat) (req' : RegisterRequest),
      req'.role = "doctor" → req'.invite_code = some c →
      (register now' fid' req' (runOps (register now fid req st0).2 ops)).2 =
        runOps (register now fid req st0).2 ops ∧
      (statusOf (register now' fid' req'
          (runOps (register now fid req st0).2 ops)).1 = 403 ∨
        statusOf (register now' fid' req'
          (runOps (register now fid req st0).2 ops)).1 = 409) ∧
      (((runOps (register now fid req st0).2 ops).users.find?
            (fun u => u.email == req'.email)).isSome = false →
        statusOf (register now' fid' req'
          (runOps (register now fid req st0).2 ops)).1 = 403) := by
  have h1 := register_success_marks now fid req st0 c hrole hcode hsucc
  refine ⟨h1, fun ops now' fid' req' hrole' hcode' => ?_⟩
  have h2 := runOps_preserves_used c ops _ h1
  exact register_rejects_used now' fid' req' _ c hrole' hcode' h2

/-- C9 (amended) witness: concrete registration with code INV3, then a
generate operation, then a reuse attempt from a fresh email. -/
theorem invite_codes_single_use_witness :
    statusOf (register 1 7 wReq9 wSt9).1 = 201 ∧
    usedAt "INV3" (register 1 7 wReq9 wSt9).2 = true ∧
    (register 2 8 wReq9b (runOps (register 1 7 wReq9 wSt9).2 wOps9)).2 =
      runOps (register 1 7 wReq9 wSt9).2 wOps9 ∧
    (statusOf (register 2 8 wReq9b
        (runOps (register 1 7 wReq9 wSt9).2 wOps9)).1 = 403 ∨
      statusOf (register 2 8 wReq9b
        (runOps (register 1 7 wReq9 wSt9).2 wOps9)).1 = 409) ∧
    (((runOps (register 1 7 wReq9 wSt9).2 wOps9).users.find?
          (fun u => u.email == wReq9b.email)).isSome = false →
      statusOf (register 2 8 wReq9b
        (runOps (register 1 7 wReq9 wSt9).2 wOps9)).1 = 403) := by
  have h := invite_codes_single_use wSt9 1 7 wReq9 "INV3" rfl rfl (by decide)
  have h2 := h.2 wOps9 2 8 wReq9b rfl rfl
  exact ⟨by decide, h.1, h2.1, h2.2.1, h2.2.2⟩

/-- C10 (the claim is right, the code is wrong): `generate_invite_codes`
with no expiration stores a document whose `expires_at` key holds `None`;
a doctor register call presenting that unused code then evaluates
`expires_at.tzinfo` on `None` and raises an uncaught `AttributeError`
(surfaced as HTTP 500), instead of completing with 201 or 403. -/
theorem register_none_expiry_crash :
    cxSt10.invites.find? (fun d => d.code == "INV1") =
      some ⟨"INV1", "doctor", false, true, none, none, none⟩ ∧
    (register 200 1 cxReq10 cxSt10).1 =
      .exnAttributeError "NoneType object has no attribute tzinfo" ∧
    statusOf (register 200 1 cxReq10 cxSt10).1 = 500 ∧
    ¬(statusOf (register 200 1 cxReq10 cxSt10).1 = 201 ∨
      statusOf (register 200 1 cxReq10 cxSt10).1 = 403) := by
  refine ⟨by decide, by decide, by decide, by decide⟩

end Zenix
